import Mathlib

/-!
Shallow embedding of the message-processing resilience core of the
`jules-mvp` backend, together with proofs of the behavioural claims about
it.  Each Python component is translated into executable Lean definitions:

* `Saga`   — `src/backend/core/sagas/base.py` (`SagaOrchestrator`)
* `EventBus` — `src/backend/core/events/idempotency.py` (`IdempotentEventBus`)
* `HSM`    — `src/backend/core/state/hybrid_state_manager.py`
* `Gateway` — `src/backend/services/ai/rate_limited_service.py`
* `Batch`  — `src/backend/services/sms/batch_sender.py`
* `Pipeline` — `src/jules-backend/src/services/conversation_service.py` and
  `crisis_service.py`
* `RecipeSaga` — `src/backend/core/sagas/recipe_extraction_saga.py`

External collaborators (Redis, the SMS provider, the AI client, the LLM,
the database) are modelled by their observable behaviour: each call an
embedded function makes to a collaborator is driven by an explicit
behaviour parameter (the outcome the collaborator would return), and the
side effects the code performs are collected in explicit state records or
event traces.  Python exceptions are modelled with `Except` / `Option`.
-/

namespace Saga

/-- A single step in a saga, from `SagaStep` in `src/backend/core/sagas/base.py`.
The Python `execute` and `compensate` fields are zero-argument async
callables; here each is embedded by the outcome it produces when awaited:
`execute` either returns a result value or raises an error, `compensate`
(when present) either returns or raises.  Errors and results are strings. -/
structure SagaStep where
  name : String
  execute : Except String String
  compensate : Option (Except String Unit)
  result : Option String := none
deriving Repr

/-- Saga execution context, from `SagaContext` in `base.py`. -/
structure SagaContext where
  saga_id : String
  steps : List SagaStep := []
  completed_steps : List SagaStep := []
  failed : Bool := false
  error : Option String := none
deriving Repr

/-- Events observable during `SagaOrchestrator.execute` / `_rollback`,
mirroring the log statements and calls the Python code performs in order. -/
inductive SagaEvent where
  | stepStart (name : String)
  | stepComplete (name : String)
  | stepFailed (name : String)
  | compAttempt (name : String) (succeeded : Bool)
deriving Repr, DecidableEq

/-- The `for step in context.steps` loop of `SagaOrchestrator.execute`:
runs steps in order, storing each successful result on the step and
appending it to the completed list; stops at the first step whose
`execute` raises, returning the completed list and the failing step with
its error. -/
def executeLoop : List SagaStep → List SagaStep → List SagaStep × Option (SagaStep × String)
  | [], done => (done, none)
  | s :: rest, done =>
    match s.execute with
    | .ok r => executeLoop rest (done ++ [{ s with result := some r }])
    | .error e => (done, some (s, e))

/-- Forward-phase event trace of the `execute` loop (step start/complete
per the `logger.info` calls, step failure on exception). -/
def executeTrace : List SagaStep → List SagaEvent
  | [] => []
  | s :: rest =>
    match s.execute with
    | .ok _ => .stepStart s.name :: .stepComplete s.name :: executeTrace rest
    | .error _ => [.stepStart s.name, .stepFailed s.name]

/-- The list of values `context.completed_steps` takes during the
`execute` loop: its initial value, then the value after each append. -/
def completedStates : List SagaStep → List SagaStep → List (List SagaStep)
  | [], done => [done]
  | s :: rest, done =>
    match s.execute with
    | .ok r => done :: completedStates rest (done ++ [{ s with result := some r }])
    | .error _ => [done]

/-- The `for step in reversed(context.completed_steps)` loop of
`SagaOrchestrator._rollback`, applied to an already reversed list: a
step with a `compensate` action gets one compensation attempt (its own
failure is caught and ignored — `# Continue rollback even if compensation
fails`); steps without one are skipped. -/
def rollbackLoop : List SagaStep → List SagaEvent
  | [] => []
  | s :: rest =>
    match s.compensate with
    | some c => .compAttempt s.name c.toBool :: rollbackLoop rest
    | none => rollbackLoop rest

/-- `SagaOrchestrator._rollback`: iterate `completed_steps` in reverse. -/
def rollback (ctx : SagaContext) : List SagaEvent :=
  rollbackLoop ctx.completed_steps.reverse

/-- Result of `SagaOrchestrator.execute`: the final context, the
exception propagated to the caller (the original step error, re-raised
after rollback, per the bare `raise`), and the full event trace. -/
structure ExecResult where
  ctx : SagaContext
  raised : Option String
  trace : List SagaEvent
deriving Repr

/-- `SagaOrchestrator.execute` on a context: run steps in order; on a
step failure mark the context failed, record the error, roll back the
completed steps in reverse order, and re-raise the original error. -/
def execute (ctx : SagaContext) : ExecResult :=
  match executeLoop ctx.steps ctx.completed_steps with
  | (done, none) =>
    { ctx := { ctx with completed_steps := done }
      raised := none
      trace := executeTrace ctx.steps }
  | (done, some (_s, e)) =>
    let ctx' : SagaContext :=
      { ctx with completed_steps := done, failed := true, error := some e }
    { ctx := ctx'
      raised := some e
      trace := executeTrace ctx.steps ++ rollback ctx' }

/-- `Saga.create_context` from `base.py`. -/
def create_context (saga_id : String) : SagaContext :=
  { saga_id := saga_id }

end Saga

namespace Saga

/-- The completed copy of a step: `step.result` is set to the value its
`execute` action returned (the Python loop mutates the step object before
appending it to `completed_steps`). -/
def withResult (s : SagaStep) : SagaStep :=
  match s.execute with
  | .ok r => { s with result := some r }
  | .error _ => s

/-- Outcome of a step's compensation attempt (`true` when the
`compensate` action returns, `false` when it raises). -/
def compOutcome (s : SagaStep) : Bool :=
  match s.compensate with
  | some c => c.toBool
  | none => false

/-- Whether a trace event is a compensation attempt. -/
def isCompAttempt : SagaEvent → Bool
  | .compAttempt _ _ => true
  | _ => false

theorem withResult_name (s : SagaStep) : (withResult s).name = s.name := by
  unfold withResult
  cases s.execute <;> rfl

theorem withResult_compensate (s : SagaStep) :
    (withResult s).compensate = s.compensate := by
  unfold withResult
  cases s.execute <;> rfl

theorem executeLoop_ok_append (pre l : List SagaStep)
    (h : ∀ s ∈ pre, s.execute.isOk = true) (acc : List SagaStep) :
    executeLoop (pre ++ l) acc = executeLoop l (acc ++ pre.map withResult) := by
  induction pre generalizing acc with
  | nil => simp
  | cons s pre ih =>
    have hs : s.execute.isOk = true := h s (by simp)
    cases he : s.execute with
    | error e => rw [he] at hs; simp [Except.isOk, Except.toBool] at hs
    | ok r =>
        have hrest : ∀ t ∈ pre, t.execute.isOk = true := fun t ht => h t (by simp [ht])
        have hws : withResult s = { s with result := some r } := by
          simp [withResult, he]
        simp only [List.cons_append, executeLoop, he, List.map_cons, hws,
          List.append_eq]
        rw [ih hrest]
        simp [List.append_assoc, he]

theorem executeLoop_error_cons (f : SagaStep) (rest acc : List SagaStep)
    (e : String) (hf : f.execute = .error e) :
    executeLoop (f :: rest) acc = (acc, some (f, e)) := by
  simp [executeLoop, hf]

theorem executeTrace_ok_append (pre l : List SagaStep)
    (h : ∀ s ∈ pre, s.execute.isOk = true) :
    executeTrace (pre ++ l) =
      pre.flatMap (fun s => [.stepStart s.name, .stepComplete s.name]) ++
        executeTrace l := by
  induction pre with
  | nil => simp
  | cons s pre ih =>
    have hs : s.execute.isOk = true := h s (by simp)
    cases he : s.execute with
    | error e => rw [he] at hs; simp [Except.isOk, Except.toBool] at hs
    | ok r =>
        have hrest : ∀ t ∈ pre, t.execute.isOk = true := fun t ht => h t (by simp [ht])
        simp [List.cons_append, executeTrace, he, ih hrest]

theorem rollbackLoop_eq_filter (l : List SagaStep) :
    rollbackLoop l =
      (l.filter (fun s => s.compensate.isSome)).map
        (fun s => .compAttempt s.name (compOutcome s)) := by
  induction l with
  | nil => rfl
  | cons s rest ih =>
    cases hc : s.compensate with
    | none => simp [rollbackLoop, hc, ih, List.filter]
    | some c => simp [rollbackLoop, hc, ih, List.filter, compOutcome]

theorem completedStates_names (l : List SagaStep) :
    ∀ acc c, c ∈ completedStates l acc →
      ∃ k, c.map SagaStep.name =
        acc.map SagaStep.name ++ (l.map SagaStep.name).take k := by
  induction l with
  | nil =>
      intro acc c hc
      simp [completedStates] at hc
      exact ⟨0, by simp [hc]⟩
  | cons s rest ih =>
      intro acc c hc
      cases he : s.execute with
      | error e =>
          simp [completedStates, he] at hc
          exact ⟨0, by simp [hc]⟩
      | ok r =>
          simp [completedStates, he] at hc
          rcases hc with hc | hc
          · exact ⟨0, by simp [hc]⟩
          · rcases ih _ _ hc with ⟨k, hk⟩
            refine ⟨k + 1, ?_⟩
            simp at hk
            simp [hk]

end Saga

namespace Saga

theorem executeTrace_no_comp (l : List SagaStep) :
    (executeTrace l).filter isCompAttempt = [] := by
  induction l with
  | nil => rfl
  | cons s rest ih =>
    cases he : s.execute <;> simp [executeTrace, he, isCompAttempt, ih]

theorem rollbackLoop_map_withResult (l : List SagaStep) :
    rollbackLoop (l.map withResult) = rollbackLoop l := by
  induction l with
  | nil => rfl
  | cons s rest ih =>
    cases hc : s.compensate with
    | none =>
        simp only [List.map_cons, rollbackLoop, withResult_compensate, hc, ih]
    | some c =>
        simp only [List.map_cons, rollbackLoop, withResult_compensate, hc, ih,
          withResult_name]

theorem rollbackLoop_all_comp (l : List SagaStep) :
    (rollbackLoop l).filter isCompAttempt = rollbackLoop l := by
  induction l with
  | nil => rfl
  | cons s rest ih =>
    cases hc : s.compensate <;> simp [rollbackLoop, hc, isCompAttempt, ih]

/-- Reduction of `execute` when the step loop fails. -/
theorem execute_failed_eq (ctx : SagaContext) (done : List SagaStep)
    (f : SagaStep) (e : String)
    (h : executeLoop ctx.steps ctx.completed_steps = (done, some (f, e))) :
    execute ctx =
      { ctx := { ctx with completed_steps := done, failed := true, error := some e }
        raised := some e
        trace := executeTrace ctx.steps ++ rollbackLoop done.reverse } := by
  unfold execute
  rw [h]
  rfl

end Saga

namespace Saga

/-- Claim C2: whenever some step of a saga raises during
`SagaOrchestrator.execute`, the rollback attempts the `compensate` action
of every completed step that has one (steps without one are skipped), in
reverse completion order, regardless of the outcomes of the compensation
actions themselves (a failing compensation does not abort the remaining
compensations, since the `compensate` fields here are arbitrary and may
all raise), and the exception finally raised to the caller is the
original step error, never a compensation error. -/
theorem saga_rollback_complete_and_original_error
    (sid e : String) (pre rest : List SagaStep) (f : SagaStep)
    (hpre : ∀ s ∈ pre, s.execute.isOk = true) (hf : f.execute = .error e) :
    (execute { saga_id := sid, steps := pre ++ f :: rest }).raised = some e ∧
    (execute { saga_id := sid, steps := pre ++ f :: rest }).trace.filter isCompAttempt =
      (pre.reverse.filter (fun s => s.compensate.isSome)).map
        (fun s => .compAttempt s.name (compOutcome s)) := by
  have hloop : executeLoop (pre ++ f :: rest) [] = (pre.map withResult, some (f, e)) := by
    rw [executeLoop_ok_append pre (f :: rest) hpre []]
    rw [executeLoop_error_cons f rest (([] : List SagaStep) ++ pre.map withResult) e hf]
    simp
  have hx := execute_failed_eq { saga_id := sid, steps := pre ++ f :: rest }
    (pre.map withResult) f e hloop
  rw [hx]
  refine ⟨rfl, ?_⟩
  simp only [List.filter_append, executeTrace_no_comp, List.nil_append]
  rw [rollbackLoop_all_comp]
  rw [← List.map_reverse, rollbackLoop_map_withResult]
  exact rollbackLoop_eq_filter pre.reverse

/-- Witness step: completes and its compensation succeeds. -/
def wStep1 : SagaStep :=
  { name := "s1", execute := .ok "r1", compensate := some (.ok ()) }

/-- Witness step: completes but its compensation raises. -/
def wStep2 : SagaStep :=
  { name := "s2", execute := .ok "r2", compensate := some (.error "comp2 boom") }

/-- Witness step: completes and has no compensation. -/
def wStep3 : SagaStep :=
  { name := "s3", execute := .ok "r3", compensate := none }

/-- Witness step: raises during execution. -/
def wStep4 : SagaStep :=
  { name := "s4", execute := .error "step4 boom", compensate := some (.ok ()) }

/-- Witness step: never reached. -/
def wStep5 : SagaStep :=
  { name := "s5", execute := .ok "r5", compensate := some (.ok ()) }

/-- Witness for C2 on a concrete saga whose fourth step fails and whose
second compensation itself raises: the compensations of steps 3, 2, 1
are still attempted in reverse order and the raised error is the step-4
error. -/
theorem saga_rollback_complete_and_original_error_witness :
    (execute { saga_id := "w", steps := [wStep1, wStep2, wStep3] ++ wStep4 :: [wStep5] }).raised
        = some "step4 boom" ∧
    (execute { saga_id := "w", steps := [wStep1, wStep2, wStep3] ++ wStep4 :: [wStep5] }).trace.filter isCompAttempt =
      ([wStep1, wStep2, wStep3].reverse.filter (fun s => s.compensate.isSome)).map
        (fun s => .compAttempt s.name (compOutcome s)) :=
  saga_rollback_complete_and_original_error "w" "step4 boom"
    [wStep1, wStep2, wStep3] [wStep5] wStep4 (by decide) rfl

/-- Claim C3: `completed_steps` is at every point of
`SagaOrchestrator.execute` a leading segment (prefix) of `context.steps`
in the original order; a step is appended only after its execute action
resolves; the event trace shows step N+1 starting only after step N
completes, the failing step starting only after all earlier steps
completed, and every compensation attempt happening after the failure,
iterating exactly the completed leading segment in reverse order. -/
theorem saga_completed_steps_leading_segment
    (steps0 : List SagaStep) (sid e : String) (pre rest : List SagaStep) (f : SagaStep)
    (hpre : ∀ s ∈ pre, s.execute.isOk = true) (hf : f.execute = .error e) :
    (∀ c ∈ completedStates steps0 [],
        ∃ k, c.map SagaStep.name = (steps0.map SagaStep.name).take k) ∧
    (execute { saga_id := sid, steps := pre ++ f :: rest }).ctx.completed_steps
        = pre.map withResult ∧
    (execute { saga_id := sid, steps := pre ++ f :: rest }).trace =
      pre.flatMap (fun s => [.stepStart s.name, .stepComplete s.name]) ++
        ([.stepStart f.name, .stepFailed f.name] ++
          rollbackLoop ((pre.map withResult).reverse)) := by
  have hloop : executeLoop (pre ++ f :: rest) [] = (pre.map withResult, some (f, e)) := by
    rw [executeLoop_ok_append pre (f :: rest) hpre []]
    rw [executeLoop_error_cons f rest (([] : List SagaStep) ++ pre.map withResult) e hf]
    simp
  have hx := execute_failed_eq { saga_id := sid, steps := pre ++ f :: rest }
    (pre.map withResult) f e hloop
  refine ⟨?_, ?_, ?_⟩
  · intro c hc
    rcases completedStates_names steps0 [] c hc with ⟨k, hk⟩
    exact ⟨k, by simpa using hk⟩
  · rw [hx]
  · rw [hx]
    show executeTrace (pre ++ f :: rest) ++ rollbackLoop ((pre.map withResult).reverse) = _
    rw [executeTrace_ok_append pre (f :: rest) hpre]
    have : executeTrace (f :: rest) = [.stepStart f.name, .stepFailed f.name] := by
      simp [executeTrace, hf]
    rw [this, List.append_assoc]

/-- Witness for C3 on the same concrete saga: the intermediate
`completed_steps` values are leading segments of the step list, the final
completed list is the executed three-step segment, and the trace is the
strictly ordered start/complete sequence followed by the failure and the
reverse-order compensations. -/
theorem saga_completed_steps_leading_segment_witness :
    (∀ c ∈ completedStates [wStep1, wStep2, wStep3, wStep4, wStep5] [],
        ∃ k, c.map SagaStep.name =
          ([wStep1, wStep2, wStep3, wStep4, wStep5].map SagaStep.name).take k) ∧
    (execute { saga_id := "w", steps := [wStep1, wStep2, wStep3] ++ wStep4 :: [wStep5] }).ctx.completed_steps
        = [wStep1, wStep2, wStep3].map withResult ∧
    (execute { saga_id := "w", steps := [wStep1, wStep2, wStep3] ++ wStep4 :: [wStep5] }).trace =
      [wStep1, wStep2, wStep3].flatMap (fun s => [.stepStart s.name, .stepComplete s.name]) ++
        ([.stepStart wStep4.name, .stepFailed wStep4.name] ++
          rollbackLoop (([wStep1, wStep2, wStep3].map withResult).reverse)) :=
  saga_completed_steps_leading_segment [wStep1, wStep2, wStep3, wStep4, wStep5]
    "w" "step4 boom" [wStep1, wStep2, wStep3] [wStep5] wStep4 (by decide) rfl

end Saga

namespace EventBus

/-- Event with idempotency key, from `Event` in
`src/backend/core/events/idempotency.py`.  `data` is the event payload
dict, modelled as an association list of string fields. -/
structure Event where
  id : String
  type : String
  data : List (String × String)
  correlation_id : Option String := none
deriving Repr, DecidableEq

/-- Model of the Redis instance behind the bus: `kv` holds the
string keys written with `setex` (value and absolute expiry instant,
in seconds), `queues` holds the lists written with `lpush`. -/
structure RedisState where
  kv : List (String × String × Nat) := []
  queues : List (String × List String) := []
deriving Repr, DecidableEq

/-- Update or insert a key in an association list. -/
def setAssoc {α : Type} : List (String × α) → String → α → List (String × α)
  | [], k, v => [(k, v)]
  | (k', v') :: rest, k, v =>
    if k' = k then (k, v) :: rest else (k', v') :: setAssoc rest k v

/-- `redis.exists(key)` at time `now`: a key exists while its expiry
instant has not been reached. -/
def existsKey (st : RedisState) (now : Nat) (k : String) : Bool :=
  st.kv.any (fun p => p.1 = k && now < p.2.2)

/-- `redis.setex(key, ttl, value)` at time `now`. -/
def setex (st : RedisState) (now : Nat) (k : String) (ttl : Nat) (v : String) : RedisState :=
  { st with kv := setAssoc st.kv k (v, now + ttl) }

/-- The current contents of a queue (most recently pushed first). -/
def getQueue (st : RedisState) (k : String) : List String :=
  ((st.queues.find? (fun q => q.1 = k)).map (·.2)).getD []

/-- `redis.lpush(key, value)`. -/
def lpush (st : RedisState) (k : String) (v : String) : RedisState :=
  { st with queues := setAssoc st.queues k (v :: getQueue st k) }

/-- `Event.json` / `IdempotentEventBus.json`: `json.dumps` of the four
fields (string escaping of the payload is not modelled; the claims only
compare serialized events for equality). -/
def Event.json (e : Event) : String :=
  let q := fun (s : String) => "\"" ++ s ++ "\""
  let renderField := fun (p : String × String) => q p.1 ++ ": " ++ q p.2
  "\x7b\"id\": " ++ q e.id ++ ", \"type\": " ++ q e.type ++
    ", \"data\": \x7b" ++ String.intercalate ", " (e.data.map renderField) ++
    "\x7d, \"correlation_id\": " ++
    (match e.correlation_id with
     | some c => q c
     | none => "null") ++ "\x7d"

/-- `IdempotentEventBus.emit` with dedup TTL `ttl`, run at time `now`:
check `event:<id>` with `exists`; if present return `False`; otherwise
`lpush` the serialized event onto `events:<type>`, `setex` the dedup key
for `ttl` seconds, and return `True`.  Returns the result and the new
Redis state. -/
def emit (ttl now : Nat) (e : Event) (st : RedisState) : Bool × RedisState :=
  let idempotency_key := "event:" ++ e.id
  if existsKey st now idempotency_key then
    (false, st)
  else
    let queue_key := "events:" ++ e.type
    let st1 := lpush st queue_key (Event.json e)
    let st2 := setex st1 now idempotency_key ttl "1"
    (true, st2)

theorem find?_setAssoc_self {α : Type} (l : List (String × α)) (k : String) (v : α) :
    (setAssoc l k v).find? (fun p => p.1 = k) = some (k, v) := by
  induction l with
  | nil => simp [setAssoc]
  | cons p rest ih =>
    by_cases h : p.1 = k
    · simp [setAssoc, h]
    · simp [setAssoc, h, List.find?, ih]

theorem mem_setAssoc_self {α : Type} (l : List (String × α)) (k : String) (v : α) :
    (k, v) ∈ setAssoc l k v := by
  induction l with
  | nil => simp [setAssoc]
  | cons p rest ih =>
    by_cases h : p.1 = k
    · simp [setAssoc, h]
    · simp [setAssoc, h, ih]

theorem getQueue_lpush_self (st : RedisState) (k v : String) :
    getQueue (lpush st k v) k = v :: getQueue st k := by
  simp [getQueue, lpush, find?_setAssoc_self]

theorem existsKey_setex_self (st : RedisState) (now now2 ttl : Nat) (k v : String)
    (h : now2 < now + ttl) :
    existsKey (setex st now k ttl v) now2 k = true := by
  simp only [existsKey, setex, List.any_eq_true]
  exact ⟨(k, v, now + ttl), mem_setAssoc_self st.kv k (v, now + ttl), by simp [h]⟩

end EventBus

namespace EventBus

/-- Claim C1: when no prior emission with the same id is within the
retention window (the dedup key `event:<id>` does not exist), `emit`
returns `True` and pushes the event onto the `events:<type>` queue
exactly once; a second `emit` with the same id while the first call's
dedup key is still within the retention window returns `False` and
changes nothing, so across both calls the queue gains exactly one entry
for that id. -/
theorem emit_duplicate_noop (ttl now : Nat) (e : Event) (st : RedisState)
    (h : existsKey st now ("event:" ++ e.id) = true) :
    emit ttl now e st = (false, st) := by
  simp [emit, h]

theorem emit_dedups_within_retention_window
    (ttl now now2 : Nat) (e : Event) (st : RedisState)
    (hfresh : existsKey st now ("event:" ++ e.id) = false)
    (hwin : now2 < now + ttl) :
    (emit ttl now e st).1 = true ∧
    getQueue (emit ttl now e st).2 ("events:" ++ e.type) =
      Event.json e :: getQueue st ("events:" ++ e.type) ∧
    (emit ttl now2 e (emit ttl now e st).2).1 = false ∧
    (emit ttl now2 e (emit ttl now e st).2).2 = (emit ttl now e st).2 := by
  have h1 : emit ttl now e st =
      (true, setex (lpush st ("events:" ++ e.type) (Event.json e)) now
        ("event:" ++ e.id) ttl "1") := by
    simp [emit, hfresh]
  have hdup : existsKey (emit ttl now e st).2 now2 ("event:" ++ e.id) = true := by
    rw [h1]
    exact existsKey_setex_self _ now now2 ttl _ _ hwin
  refine ⟨by rw [h1], ?_, ?_, ?_⟩
  · rw [h1]
    show getQueue (setex _ _ _ _ _) _ = _
    have : ∀ st' now' k' ttl' v', getQueue (setex st' now' k' ttl' v') = getQueue st' := by
      intro st' now' k' ttl' v'
      rfl
    rw [this]
    exact getQueue_lpush_self st _ _
  · rw [emit_duplicate_noop ttl now2 e _ hdup]
  · rw [emit_duplicate_noop ttl now2 e _ hdup]

/-- Witness for C1: a concrete event emitted at time 0 into an empty
Redis and re-emitted at time 10, within the 86400-second window. -/
theorem emit_dedups_within_retention_window_witness :
    (emit 86400 0 { id := "e1", type := "recipe.extracted", data := [("k", "v")] } {}).1 = true ∧
    getQueue (emit 86400 0 { id := "e1", type := "recipe.extracted", data := [("k", "v")] } {}).2
        ("events:" ++ "recipe.extracted") =
      Event.json { id := "e1", type := "recipe.extracted", data := [("k", "v")] } ::
        getQueue {} ("events:" ++ "recipe.extracted") ∧
    (emit 86400 10 { id := "e1", type := "recipe.extracted", data := [("k", "v")] }
        (emit 86400 0 { id := "e1", type := "recipe.extracted", data := [("k", "v")] } {}).2).1
      = false ∧
    (emit 86400 10 { id := "e1", type := "recipe.extracted", data := [("k", "v")] }
        (emit 86400 0 { id := "e1", type := "recipe.extracted", data := [("k", "v")] } {}).2).2
      = (emit 86400 0 { id := "e1", type := "recipe.extracted", data := [("k", "v")] } {}).2 :=
  emit_dedups_within_retention_window 86400 0 10
    { id := "e1", type := "recipe.extracted", data := [("k", "v")] } {} rfl (by decide)

/-- Program counter of one in-flight `emit` call, decomposed at its
await points: the `exists` check, the `lpush`, the `setex`, and the two
return values. -/
inductive EmitPC where
  | check
  | push
  | mark
  | doneTrue
  | doneFalse
deriving Repr, DecidableEq

/-- One atomic Redis operation of an in-flight `emit` call (`emit`
performs `exists`, then `lpush`, then `setex`, each a separate awaited
Redis command in the source). -/
def emitStep (ttl now : Nat) (e : Event) (st : RedisState) : EmitPC → RedisState × EmitPC
  | .check =>
    if existsKey st now ("event:" ++ e.id) then (st, .doneFalse) else (st, .push)
  | .push => (lpush st ("events:" ++ e.type) (Event.json e), .mark)
  | .mark => (setex st now ("event:" ++ e.id) ttl "1", .doneTrue)
  | .doneTrue => (st, .doneTrue)
  | .doneFalse => (st, .doneFalse)

/-- Run two concurrent `emit` calls for the same event under an explicit
interleaving: `false` schedules the next atomic operation of emitter A,
`true` of emitter B. -/
def runSchedule (ttl now : Nat) (e : Event) :
    List Bool → RedisState → EmitPC → EmitPC → RedisState × EmitPC × EmitPC
  | [], st, a, b => (st, a, b)
  | t :: rest, st, a, b =>
    if t then
      let (st', b') := emitStep ttl now e st b
      runSchedule ttl now e rest st' a b'
    else
      let (st', a') := emitStep ttl now e st a
      runSchedule ttl now e rest st' a' b

/-- Claim C4 fails on the code: `emit` performs the duplicate check and
the dedup marking as separate `exists` and `setex` calls, so the
interleaving in which both emitters run their `exists` check before
either runs `setex` lets both observe the key as absent, both return
`True`, and the event is enqueued twice. -/
theorem emit_race_both_return_true :
    (runSchedule 86400 0 { id := "dup", type := "t", data := [] }
        [false, true, false, false, true, true] {} .check .check).2.1 = .doneTrue ∧
    (runSchedule 86400 0 { id := "dup", type := "t", data := [] }
        [false, true, false, false, true, true] {} .check .check).2.2 = .doneTrue ∧
    getQueue (runSchedule 86400 0 { id := "dup", type := "t", data := [] }
        [false, true, false, false, true, true] {} .check .check).1 ("events:" ++ "t") =
      [Event.json { id := "dup", type := "t", data := [] },
       Event.json { id := "dup", type := "t", data := [] }] := by
  refine ⟨rfl, rfl, ?_⟩
  rfl

end EventBus

namespace EventBus

/-- `redis.get(key)` at time `now`: the stored value while unexpired. -/
def getKey (st : RedisState) (now : Nat) (k : String) : Option String :=
  match st.kv.find? (fun p => p.1 = k) with
  | some p => if now < p.2.2 then some p.2.1 else none
  | none => none

theorem getKey_setex_self (st : RedisState) (now now2 ttl : Nat) (k v : String)
    (h : now2 < now + ttl) :
    getKey (setex st now k ttl v) now2 k = some v := by
  simp [getKey, setex, find?_setAssoc_self, h]

end EventBus

namespace HSM

/-- A queued background-persistence task, from the dicts put on
`self.background_tasks` in
`src/backend/core/state/hybrid_state_manager.py` (`action` tag plus
fields).  `α` is the type of conversation-state dicts. -/
inductive BgTask (α : Type) where
  | persist (household_id : String) (member_id : Option String) (state_data : α)
  | delete (household_id : String) (member_id : Option String)
deriving Repr, DecidableEq

/-- A `ConversationState` row of the durable store, with the columns
read by `_load_from_db`. -/
structure DbRow where
  id : Nat
  household_id : String
  member_id : Option String
  channel : Option String
  current_flow : Option String
  current_step : Option String
  flow_data : Option String
deriving Repr, DecidableEq

/-- State owned by a `HybridStateManager`: its Redis cache, the durable
store, and the background-persistence queue. -/
structure ManagerState (α : Type) where
  redis : EventBus.RedisState := {}
  db : List DbRow := []
  background_tasks : List (BgTask α) := []
deriving Repr

/-- `HybridStateManager._get_cache_key`. -/
def _get_cache_key (household_id : String) (member_id : Option String) : String :=
  match member_id with
  | some m => "state:individual:" ++ household_id ++ ":" ++ m
  | none => "state:group:" ++ household_id

/-- `HybridStateManager.get_state`: cache first (`if cached:` — Python
truthiness, so an empty string is a miss), else `_load_from_db`
(modelled by the environment function `loadFromDb`, the SQLAlchemy
query being an external collaborator), repopulating the cache on a
database hit.  `loads` models `json.loads`. -/
def get_state {α : Type} (loads : String → α) (dumps : α → String)
    (loadFromDb : List DbRow → String → Option String → Option α)
    (ttl now : Nat) (st : ManagerState α)
    (household_id : String) (member_id : Option String := none) :
    Option α × ManagerState α :=
  let cache_key := _get_cache_key household_id member_id
  let onMiss : Option α × ManagerState α :=
    match loadFromDb st.db household_id member_id with
    | some state =>
      (some state,
        { st with redis := EventBus.setex st.redis now cache_key ttl (dumps state) })
    | none => (none, st)
  match EventBus.getKey st.redis now cache_key with
  | some cached => if cached = "" then onMiss else (some (loads cached), st)
  | none => onMiss

/-- `HybridStateManager.update_state`: write the cache synchronously
(`setex` with the serialized state), then enqueue a background persist
task; the durable store is not touched by this call. -/
def update_state {α : Type} (dumps : α → String) (ttl now : Nat)
    (st : ManagerState α) (household_id : String) (state_data : α)
    (member_id : Option String := none) : ManagerState α :=
  let cache_key := _get_cache_key household_id member_id
  { st with
    redis := EventBus.setex st.redis now cache_key ttl (dumps state_data)
    background_tasks :=
      st.background_tasks ++ [.persist household_id member_id state_data] }

/-- Claim C5: for every owner key and every JSON-serializable state `v`
(`loads` undoes `dumps` and `dumps v` is nonempty — true of `json.dumps`
on dicts), once `update_state` has returned, the durable store is
untouched and the persistence task merely queued, yet an immediately
following `get_state` of the same owner in the same process returns `v`
through the cache path without consulting the durable store. -/
theorem update_state_read_your_writes {α : Type}
    (loads : String → α) (dumps : α → String)
    (loadFromDb : List DbRow → String → Option String → Option α)
    (ttl now : Nat) (st : ManagerState α)
    (household_id : String) (member_id : Option String) (v : α)
    (hround : loads (dumps v) = v) (hne : dumps v ≠ "") (httl : 0 < ttl) :
    (get_state loads dumps loadFromDb ttl now
        (update_state dumps ttl now st household_id v member_id)
        household_id member_id).1 = some v ∧
    (get_state loads dumps loadFromDb ttl now
        (update_state dumps ttl now st household_id v member_id)
        household_id member_id).2 =
      update_state dumps ttl now st household_id v member_id ∧
    (update_state dumps ttl now st household_id v member_id).db = st.db ∧
    (update_state dumps ttl now st household_id v member_id).background_tasks =
      st.background_tasks ++ [.persist household_id member_id v] := by
  have hget : EventBus.getKey
      (update_state dumps ttl now st household_id v member_id).redis now
      (_get_cache_key household_id member_id) = some (dumps v) := by
    show EventBus.getKey
      (EventBus.setex st.redis now (_get_cache_key household_id member_id) ttl (dumps v))
      now (_get_cache_key household_id member_id) = some (dumps v)
    exact EventBus.getKey_setex_self st.redis now now ttl _ _ (by omega)
  refine ⟨?_, ?_, rfl, rfl⟩
  · simp [get_state, hget, hne, hround]
  · simp [get_state, hget, hne]

/-- Serialization used by the C5 witness: a two-value state type with an
injective, nonempty rendering. -/
def wDumps : Bool → String := fun b => if b then "tru" else "fls"

/-- Deserialization used by the C5 witness. -/
def wLoads : String → Bool := fun s => s = "tru"

/-- Witness for C5: a concrete owner and state on an empty manager with
a 300-second cache TTL. -/
theorem update_state_read_your_writes_witness :
    (get_state wLoads wDumps (fun _ _ _ => none) 300 0
        (update_state wDumps 300 0 {} "h1" true none) "h1" none).1 = some true ∧
    (get_state wLoads wDumps (fun _ _ _ => none) 300 0
        (update_state wDumps 300 0 {} "h1" true none) "h1" none).2 =
      update_state wDumps 300 0 {} "h1" true none ∧
    (update_state wDumps 300 0 ({} : ManagerState Bool) "h1" true none).db = ([] : List DbRow) ∧
    (update_state wDumps 300 0 ({} : ManagerState Bool) "h1" true none).background_tasks =
      ([] : List (BgTask Bool)) ++ [.persist "h1" none true] :=
  update_state_read_your_writes wLoads wDumps (fun _ _ _ => none) 300 0 {} "h1" none true
    (by decide) (by decide) (by decide)

end HSM

namespace Gateway

/-- The `self.metrics` dict of `RateLimitedAIService` in
`src/backend/services/ai/rate_limited_service.py`. -/
structure Metrics where
  total_requests : Nat := 0
  successful : Nat := 0
  failed : Nat := 0
  rate_limited : Nat := 0
  queued : Nat := 0
deriving Repr, DecidableEq

/-- Mutable state of a `RateLimitedAIService`: per-household consecutive
retry counters (`self.retry_counts`, a dict defaulting to 0) and the
metrics counters. -/
structure ServiceState where
  retry_counts : List (String × Nat) := []
  metrics : Metrics := {}
deriving Repr, DecidableEq

/-- `self.retry_counts.get(household_id, 0)`. -/
def getCount (l : List (String × Nat)) (h : String) : Nat :=
  ((l.find? (fun p => p.1 = h)).map (·.2)).getD 0

/-- Observable result of one `extract_recipe` call: the returned value
or raised error, the service state afterwards, whether a semaphore slot
was acquired, and whether the external AI call was performed. -/
structure CallResult where
  result : Except String String
  state : ServiceState
  acquiredSlot : Bool
  externalCalled : Bool
deriving Repr

/-- `RateLimitedAIService.extract_recipe` for one household: read the
household's retry counter; if it has reached `max_retries`, raise the
attempts-exhausted error before touching the queue metric, the
semaphore, or the AI client; otherwise count the request, acquire a
slot, and run the external call (`outcome` is the behaviour of
`_execute_extraction`): on success reset the household's counter to 0,
on failure set it to the read count plus one and re-raise. -/
def extract_recipe (max_retries : Nat) (st : ServiceState)
    (household_id : String) (outcome : Except String String) : CallResult :=
  let retry_count := getCount st.retry_counts household_id
  if max_retries ≤ retry_count then
    { result := .error ("Maximum " ++ toString max_retries ++ " extraction attempts reached")
      state := st
      acquiredSlot := false
      externalCalled := false }
  else
    let st1 : ServiceState :=
      { st with metrics := { st.metrics with
          queued := st.metrics.queued + 1
          total_requests := st.metrics.total_requests + 1 } }
    match outcome with
    | .ok r =>
      { result := .ok r
        state := { st1 with
          retry_counts := EventBus.setAssoc st1.retry_counts household_id 0
          metrics := { st1.metrics with successful := st1.metrics.successful + 1 } }
        acquiredSlot := true
        externalCalled := true }
    | .error e =>
      { result := .error e
        state := { st1 with
          retry_counts := EventBus.setAssoc st1.retry_counts household_id (retry_count + 1)
          metrics := { st1.metrics with failed := st1.metrics.failed + 1 } }
        acquiredSlot := true
        externalCalled := true }

theorem getCount_setAssoc_self (l : List (String × Nat)) (k : String) (v : Nat) :
    getCount (EventBus.setAssoc l k v) k = v := by
  simp [getCount, EventBus.find?_setAssoc_self]

theorem getCount_setAssoc_other (l : List (String × Nat)) (k k' : String) (v : Nat)
    (h : k' ≠ k) :
    getCount (EventBus.setAssoc l k v) k' = getCount l k' := by
  induction l with
  | nil =>
    unfold getCount
    rw [show EventBus.setAssoc ([] : List (String × Nat)) k v = [(k, v)] from rfl]
    rw [List.find?_cons_of_neg _ (by simp [Ne.symm h])]
  | cons p rest ih =>
    by_cases hp : p.1 = k
    · rw [show EventBus.setAssoc (p :: rest) k v = (k, v) :: rest from by
        simp [EventBus.setAssoc, hp]]
      unfold getCount
      rw [List.find?_cons_of_neg _ (by simp [Ne.symm h]),
        List.find?_cons_of_neg _ (by simp [hp, Ne.symm h])]
    · rw [show EventBus.setAssoc (p :: rest) k v = p :: EventBus.setAssoc rest k v from by
        simp [EventBus.setAssoc, hp]]
      by_cases hp' : p.1 = k'
      · unfold getCount
        rw [List.find?_cons_of_pos _ (by simp [hp']),
          List.find?_cons_of_pos _ (by simp [hp'])]
      · unfold getCount
        rw [List.find?_cons_of_neg _ (by simp [hp']),
          List.find?_cons_of_neg _ (by simp [hp'])]
        exact ih

end Gateway

namespace Gateway

/-- Claim C6: the retry budget is kept per owner.  An owner whose
consecutive-failure counter has reached the ceiling fails fast with the
attempts-exhausted error, without performing the external call, without
consuming a concurrency slot, and without changing any state; below the
ceiling the external call runs, a success resets that owner's counter to
zero and returns the result, a failure sets it to the previous count
plus one and propagates the error; and in every case every other owner's
counter is untouched. -/
theorem extract_recipe_retry_budget_per_owner
    (max_retries : Nat) (st : ServiceState) (A : String)
    (outcome : Except String String) :
    (max_retries ≤ getCount st.retry_counts A →
      (extract_recipe max_retries st A outcome).result =
          .error ("Maximum " ++ toString max_retries ++ " extraction attempts reached") ∧
      (extract_recipe max_retries st A outcome).acquiredSlot = false ∧
      (extract_recipe max_retries st A outcome).externalCalled = false ∧
      (extract_recipe max_retries st A outcome).state = st) ∧
    (getCount st.retry_counts A < max_retries →
      (extract_recipe max_retries st A outcome).externalCalled = true ∧
      (∀ r, outcome = .ok r →
        (extract_recipe max_retries st A outcome).result = .ok r ∧
        getCount (extract_recipe max_retries st A outcome).state.retry_counts A = 0) ∧
      (∀ e, outcome = .error e →
        (extract_recipe max_retries st A outcome).result = .error e ∧
        getCount (extract_recipe max_retries st A outcome).state.retry_counts A =
          getCount st.retry_counts A + 1)) ∧
    (∀ B, B ≠ A →
      getCount (extract_recipe max_retries st A outcome).state.retry_counts B =
        getCount st.retry_counts B) := by
  refine ⟨?_, ?_, ?_⟩
  · intro hceil
    simp [extract_recipe, hceil]
  · intro hlt
    have hif : ¬ max_retries ≤ getCount st.retry_counts A := by omega
    refine ⟨?_, ?_, ?_⟩
    · cases outcome <;> simp [extract_recipe, hif]
    · rintro r rfl
      simp [extract_recipe, hif, getCount_setAssoc_self]
    · rintro e rfl
      simp [extract_recipe, hif, getCount_setAssoc_self]
  · intro B hB
    by_cases hceil : max_retries ≤ getCount st.retry_counts A
    · simp [extract_recipe, hceil]
    · cases outcome <;> simp [extract_recipe, hceil, getCount_setAssoc_other _ _ _ _ hB]

/-- Witness for C6: with a ceiling of 3, owner `A` already at 3 fails
fast with no state change while owner `B` on the very same state still
succeeds, and `B`'s call leaves `A`'s exhausted counter untouched. -/
theorem extract_recipe_retry_budget_per_owner_witness :
    (extract_recipe 3 { retry_counts := [("A", 3)] } "A" (.ok "recipe")).result =
        .error ("Maximum " ++ toString 3 ++ " extraction attempts reached") ∧
    (extract_recipe 3 { retry_counts := [("A", 3)] } "A" (.ok "recipe")).acquiredSlot = false ∧
    (extract_recipe 3 { retry_counts := [("A", 3)] } "A" (.ok "recipe")).externalCalled = false ∧
    (extract_recipe 3 { retry_counts := [("A", 3)] } "B" (.ok "recipe")).result = .ok "recipe" ∧
    getCount (extract_recipe 3 { retry_counts := [("A", 3)] } "B" (.ok "recipe")).state.retry_counts "B" = 0 ∧
    getCount (extract_recipe 3 { retry_counts := [("A", 3)] } "B" (.ok "recipe")).state.retry_counts "A" = 3 :=
  by
  have hA := (extract_recipe_retry_budget_per_owner 3 { retry_counts := [("A", 3)] }
    "A" (.ok "recipe")).1 (by decide)
  have hB := (extract_recipe_retry_budget_per_owner 3 { retry_counts := [("A", 3)] }
    "B" (.ok "recipe")).2.1 (by decide)
  have hBiso := (extract_recipe_retry_budget_per_owner 3 { retry_counts := [("A", 3)] }
    "B" (.ok "recipe")).2.2 "A" (by decide)
  refine ⟨hA.1, hA.2.1, hA.2.2.1, (hB.2.1 "recipe" rfl).1, (hB.2.1 "recipe" rfl).2, ?_⟩
  rw [hBiso]
  decide

end Gateway

namespace Batch

/-- SMS message data, from `SMSMessage` in
`src/backend/services/sms/batch_sender.py` (`msg_to` embeds the Python
field `to`, a reserved token in Lean). -/
structure SMSMessage where
  msg_to : String
  body : String
  from_number : Option String := none
  media_url : Option String := none
  correlation_id : Option String := none
deriving Repr, DecidableEq

/-- Provider behaviour for one message: the outcome
(`message_id` or raised error) of the `send_message` /
`send_media_message` call at each attempt index. -/
def ProviderBehaviour : Type := Nat → Except String String

/-- The `for attempt in range(self.retry_attempts)` loop body of
`BatchSMSSender._send_with_retry`, with `remaining` attempts left
(`remaining = retry_attempts - attempt` throughout): a success returns
the message id; a failure records the last error and, when this is not
the final attempt, sleeps `2 ** attempt` seconds (exponential backoff);
after the final attempt the last error is re-raised (`None` when the
loop never ran).  Returns the outcome and the backoff sleeps. -/
def sendAux (behave : ProviderBehaviour) (retry_attempts : Nat) :
    Nat → Nat → Option String → Except (Option String) String × List Nat
  | _, 0, last_error => (.error last_error, [])
  | attempt, r + 1, _ =>
    match behave attempt with
    | .ok mid => (.ok mid, [])
    | .error e =>
      if attempt < retry_attempts - 1 then
        let rec_result := sendAux behave retry_attempts (attempt + 1) r (some e)
        (rec_result.1, 2 ^ attempt :: rec_result.2)
      else
        sendAux behave retry_attempts (attempt + 1) r (some e)

/-- `BatchSMSSender._send_with_retry`. -/
def _send_with_retry (retry_attempts : Nat) (behave : ProviderBehaviour) :
    Except (Option String) String × List Nat :=
  sendAux behave retry_attempts 0 retry_attempts none

/-- The per-message outcome a batch send observes. -/
def outcomeOf (retry_attempts : Nat) (behave : SMSMessage → ProviderBehaviour)
    (m : SMSMessage) : Except (Option String) String :=
  (_send_with_retry retry_attempts (behave m)).1

/-- The `for msg, result in zip(batch, batch_results)` collection loop
of `send_batch`: route each message of the window into the success or
failed accounting by its outcome. -/
def collectWindow : List (SMSMessage × Except (Option String) String) →
    List (String × String) × List (String × Option String)
  | [] => ([], [])
  | (msg, res) :: rest =>
    let tail := collectWindow rest
    match res with
    | .ok mid => ((msg.msg_to, mid) :: tail.1, tail.2)
    | .error e => (tail.1, (msg.msg_to, e) :: tail.2)

/-- Dispatch/throttle events of `send_batch`: one `window` event per
concurrently dispatched window, one `sleep` event per
`await asyncio.sleep(1)` rate-limit wait. -/
inductive BatchEvent where
  | window (size : Nat)
  | sleep (secs : Nat)
deriving Repr, DecidableEq

/-- Accounting returned by `send_batch` (the `results` dict) plus the
dispatch trace. -/
structure BatchResult where
  success : List (String × String)
  failed : List (String × Option String)
  trace : List BatchEvent
deriving Repr, DecidableEq

/-- The `while not self.queue.empty()` drain loop of
`BatchSMSSender.send_batch`: take up to `rate_limit` messages, dispatch
them concurrently, collect their outcomes in order, and sleep one second
before the next window when messages remain.  `fuel` bounds the
recursion (each window consumes at least one message whenever
`rate_limit > 0`, so `fuel = queue.length` never runs out; a zero
`rate_limit` would loop forever in the source and exhausts the fuel
here). -/
def drainLoop (rate_limit retry_attempts : Nat)
    (behave : SMSMessage → ProviderBehaviour) :
    Nat → List SMSMessage → BatchResult
  | 0, _ => { success := [], failed := [], trace := [] }
  | _ + 1, [] => { success := [], failed := [], trace := [] }
  | fuel + 1, m :: rest =>
    let queue := m :: rest
    let batch := queue.take rate_limit
    let remaining := queue.drop rate_limit
    let pairs := batch.map (fun msg => (msg, outcomeOf retry_attempts behave msg))
    let window := collectWindow pairs
    let tail := drainLoop rate_limit retry_attempts behave fuel remaining
    { success := window.1 ++ tail.success
      failed := window.2 ++ tail.failed
      trace := .window batch.length ::
        ((if remaining.isEmpty then ([] : List BatchEvent) else [.sleep 1]) ++ tail.trace) }

/-- `BatchSMSSender.send_batch`. -/
def send_batch (rate_limit retry_attempts : Nat)
    (behave : SMSMessage → ProviderBehaviour) (messages : List SMSMessage) :
    BatchResult :=
  drainLoop rate_limit retry_attempts behave messages.length messages

/-- Success selector for the accounting characterization. -/
def succSel (retry_attempts : Nat) (behave : SMSMessage → ProviderBehaviour)
    (m : SMSMessage) : Option (String × String) :=
  match outcomeOf retry_attempts behave m with
  | .ok mid => some (m.msg_to, mid)
  | .error _ => none

/-- Failure selector for the accounting characterization. -/
def failSel (retry_attempts : Nat) (behave : SMSMessage → ProviderBehaviour)
    (m : SMSMessage) : Option (String × Option String) :=
  match outcomeOf retry_attempts behave m with
  | .ok _ => none
  | .error e => some (m.msg_to, e)

/-- Last raised provider error, used to state which error an exhausted
send reports. -/
def getErr : Except String String → Option String
  | .error e => some e
  | .ok _ => none

end Batch

namespace Batch

theorem collectWindow_map (n : Nat) (behave : SMSMessage → ProviderBehaviour)
    (batch : List SMSMessage) :
    collectWindow (batch.map (fun msg => (msg, outcomeOf n behave msg))) =
      (batch.filterMap (succSel n behave), batch.filterMap (failSel n behave)) := by
  induction batch with
  | nil => rfl
  | cons m rest ih =>
    cases ho : outcomeOf n behave m <;>
      simp [collectWindow, List.filterMap_cons, succSel, failSel, ho, ih]

theorem sel_length_partition (n : Nat) (behave : SMSMessage → ProviderBehaviour)
    (l : List SMSMessage) :
    (l.filterMap (succSel n behave)).length + (l.filterMap (failSel n behave)).length
      = l.length := by
  induction l with
  | nil => rfl
  | cons m rest ih =>
    cases ho : outcomeOf n behave m <;>
      simp [List.filterMap_cons, succSel, failSel, ho, ← ih] <;> omega

theorem drainLoop_accounting (rl n : Nat) (behave : SMSMessage → ProviderBehaviour)
    (hrl : 0 < rl) :
    ∀ fuel queue, queue.length ≤ fuel →
      (drainLoop rl n behave fuel queue).success = queue.filterMap (succSel n behave) ∧
      (drainLoop rl n behave fuel queue).failed = queue.filterMap (failSel n behave) := by
  intro fuel
  induction fuel with
  | zero =>
    intro queue hq
    have hnil : queue = [] := List.eq_nil_of_length_eq_zero (Nat.le_zero.mp hq)
    subst hnil
    exact ⟨rfl, rfl⟩
  | succ fuel ih =>
    intro queue hq
    cases queue with
    | nil => exact ⟨rfl, rfl⟩
    | cons m rest =>
      have hlen : ((m :: rest).drop rl).length ≤ fuel := by
        simp only [List.length_drop, List.length_cons] at *
        omega
      have IH := ih _ hlen
      simp only [drainLoop]
      rw [collectWindow_map]
      refine ⟨?_, ?_⟩
      · rw [IH.1, ← List.filterMap_append, List.take_append_drop]
      · rw [IH.2, ← List.filterMap_append, List.take_append_drop]

theorem sendAux_step (b : ProviderBehaviour) (n attempt r : Nat)
    (last : Option String) (e : String)
    (hb : b attempt = .error e) (hlt : attempt < n - 1) :
    sendAux b n attempt (r + 1) last =
      ((sendAux b n (attempt + 1) r (some e)).1,
        2 ^ attempt :: (sendAux b n (attempt + 1) r (some e)).2) := by
  conv_lhs => rw [sendAux]
  rw [hb]
  simp [if_pos hlt]

theorem sendAux_step_final (b : ProviderBehaviour) (n attempt r : Nat)
    (last : Option String) (e : String)
    (hb : b attempt = .error e) (hlt : ¬ attempt < n - 1) :
    sendAux b n attempt (r + 1) last = sendAux b n (attempt + 1) r (some e) := by
  conv_lhs => rw [sendAux]
  rw [hb]
  simp [if_neg hlt]

theorem sendAux_all_fail (b : ProviderBehaviour) (n : Nat) :
    ∀ r attempt last, attempt + r = n →
      (∀ i, attempt ≤ i → i < n → (b i).isOk = false) → 0 < r →
      (sendAux b n attempt r last).1 = .error (getErr (b (n - 1))) ∧
      (sendAux b n attempt r last).2 = (List.range' attempt (r - 1)).map (fun i => 2 ^ i) := by
  intro r
  induction r with
  | zero => intro attempt last _ _ hr; omega
  | succ r ih =>
    intro attempt last hsum hfail _
    have hbi : (b attempt).isOk = false := hfail attempt (Nat.le_refl _) (by omega)
    cases hb : b attempt with
    | ok v => rw [hb] at hbi; simp [Except.isOk, Except.toBool] at hbi
    | error e =>
      by_cases hlt : attempt < n - 1
      · have hr : 0 < r := by omega
        obtain ⟨r', rfl⟩ := Nat.exists_eq_succ_of_ne_zero (Nat.pos_iff_ne_zero.mp hr)
        have IH := ih (attempt + 1) (some e) (by omega)
          (fun i h1 h2 => hfail i (by omega) h2) (by omega)
        rw [sendAux_step b n attempt (r' + 1) last e hb hlt]
        constructor
        · exact IH.1
        · show 2 ^ attempt :: (sendAux b n (attempt + 1) (r' + 1) (some e)).2 = _
          rw [IH.2]
          rfl
      · have ha : attempt = n - 1 := by omega
        have hr0 : r = 0 := by omega
        subst hr0
        rw [sendAux_step_final b n attempt 0 last e hb hlt]
        constructor
        · show (Except.error (some e) : Except (Option String) String) = _
          rw [show n - 1 = attempt from ha.symm, hb]
          rfl
        · rfl

/-- Claim C7: for every input message list, `send_batch` returns an
accounting in which the success entries are exactly the messages whose
retried send succeeded (with the provider message id), the failed
entries exactly those whose retry ceiling was exhausted (with the last
error), both in input order, so every message appears exactly once and
`len(success) + len(failed)` equals the input length; and a message
whose every attempt fails is reported with the error of the final
attempt after the exponential backoff sleeps `2^0, ..., 2^(n-2)`. -/
theorem send_batch_complete_accounting
    (rate_limit retry_attempts : Nat) (behave : SMSMessage → ProviderBehaviour)
    (messages : List SMSMessage) (hrl : 0 < rate_limit) :
    (send_batch rate_limit retry_attempts behave messages).success =
        messages.filterMap (succSel retry_attempts behave) ∧
    (send_batch rate_limit retry_attempts behave messages).failed =
        messages.filterMap (failSel retry_attempts behave) ∧
    (send_batch rate_limit retry_attempts behave messages).success.length +
        (send_batch rate_limit retry_attempts behave messages).failed.length =
      messages.length ∧
    (∀ b : ProviderBehaviour, 0 < retry_attempts →
      (∀ i, i < retry_attempts → (b i).isOk = false) →
      (_send_with_retry retry_attempts b).1 = .error (getErr (b (retry_attempts - 1))) ∧
      (_send_with_retry retry_attempts b).2 =
        (List.range' 0 (retry_attempts - 1)).map (fun i => 2 ^ i)) := by
  have hacc := drainLoop_accounting rate_limit retry_attempts behave hrl
    messages.length messages (Nat.le_refl _)
  refine ⟨hacc.1, hacc.2, ?_, ?_⟩
  · have h1 : (send_batch rate_limit retry_attempts behave messages).success =
        messages.filterMap (succSel retry_attempts behave) := hacc.1
    have h2 : (send_batch rate_limit retry_attempts behave messages).failed =
        messages.filterMap (failSel retry_attempts behave) := hacc.2
    rw [h1, h2]
    exact sel_length_partition retry_attempts behave messages
  · intro b hn hb
    exact sendAux_all_fail b retry_attempts retry_attempts 0 none (by omega)
      (fun i _ h2 => hb i h2) hn

end Batch

namespace Batch

/-- First witness message: provider accepts on the first attempt. -/
def wm1 : SMSMessage := { msg_to := "1", body := "a" }

/-- Second witness message: provider rejects every attempt. -/
def wm2 : SMSMessage := { msg_to := "2", body := "b" }

/-- Third witness message: provider rejects the first attempt, accepts
the second. -/
def wm3 : SMSMessage := { msg_to := "3", body := "c" }

/-- Witness provider behaviour, keyed on the destination number. -/
def wBehave : SMSMessage → ProviderBehaviour := fun m i =>
  if m.msg_to = "1" then .ok "sid1"
  else if m.msg_to = "2" then .error ("boom" ++ toString i)
  else if i = 0 then .error "first" else .ok "sid3"

/-- All-attempts-failing behaviour used for the backoff clause of the
C7 witness. -/
def wAllFail : ProviderBehaviour := fun i => .error ("boom" ++ toString i)

/-- Witness for C7: three messages through windows of two with a retry
ceiling of three; message 2 exhausts its retries and is reported with
the last error after backoffs of 1 and 2 seconds; the accounting covers
all three messages. -/
theorem send_batch_complete_accounting_witness :
    (send_batch 2 3 wBehave [wm1, wm2, wm3]).success = [("1", "sid1"), ("3", "sid3")] ∧
    (send_batch 2 3 wBehave [wm1, wm2, wm3]).failed = [("2", some "boom2")] ∧
    (send_batch 2 3 wBehave [wm1, wm2, wm3]).success.length +
        (send_batch 2 3 wBehave [wm1, wm2, wm3]).failed.length = 3 ∧
    (_send_with_retry 3 wAllFail).1 = .error (some "boom2") ∧
    (_send_with_retry 3 wAllFail).2 = [1, 2] := by
  have h := send_batch_complete_accounting 2 3 wBehave [wm1, wm2, wm3] (by decide)
  have hb := h.2.2.2 wAllFail (by decide) (by decide)
  exact ⟨h.1.trans (by rfl), h.2.1.trans (by rfl), h.2.2.1, hb.1.trans (by rfl),
    hb.2.trans (by rfl)⟩

/-- Length-level model of the drain loop's dispatch trace: window sizes
and inter-window sleeps depend only on the queue length. -/
def drainTrace (rl : Nat) : Nat → Nat → List BatchEvent
  | 0, _ => []
  | _ + 1, 0 => []
  | fuel + 1, len + 1 =>
    .window (min rl (len + 1)) ::
      ((if len + 1 - rl = 0 then ([] : List BatchEvent) else [.sleep 1]) ++
        drainTrace rl fuel (len + 1 - rl))

theorem drainLoop_trace (rl n : Nat) (behave : SMSMessage → ProviderBehaviour) :
    ∀ fuel queue,
      (drainLoop rl n behave fuel queue).trace = drainTrace rl fuel queue.length := by
  intro fuel
  induction fuel with
  | zero => intro queue; rfl
  | succ fuel ih =>
    intro queue
    cases queue with
    | nil => rfl
    | cons m rest =>
      simp only [drainLoop, drainTrace, List.length_cons]
      rw [ih]
      have hbatch : ((m :: rest).take rl).length = min rl (rest.length + 1) := by
        simp [List.length_take]
      have hrem : ((m :: rest).drop rl).length = rest.length + 1 - rl := by
        simp [List.length_drop]
      have hcond : (((m :: rest).drop rl).isEmpty = true) ↔ (rest.length + 1 - rl = 0) := by
        rw [List.isEmpty_iff_length_eq_zero, hrem]
      rw [hbatch, hrem]
      simp only [hcond]

end Batch

namespace Batch

/-- Number of dispatch windows in a batch result's trace. -/
def windowCount (r : BatchResult) : Nat :=
  r.trace.countP fun ev =>
    match ev with
    | .window _ => true
    | _ => false

/-- 250 identical messages, the load of the C8 scenario. -/
def w250 : List SMSMessage := List.replicate 250 { msg_to := "p", body := "hi" }

/-- Provider that accepts every message on the first attempt. -/
def wOkBehave : SMSMessage → ProviderBehaviour := fun _ _ => .ok "sid"

set_option maxRecDepth 8000 in
/-- Claim C8 counterexample: sending 250 messages with a window size of
80 does not drain the queue in 3 dispatch windows — 80 + 80 + 80 = 240
messages leave 10 for a fourth window. -/
theorem send_batch_250_window_80_not_three_windows :
    windowCount (send_batch 80 3 wOkBehave w250) ≠ 3 := by
  have ht := drainLoop_trace 80 3 wOkBehave w250.length w250
  unfold windowCount
  rw [show send_batch 80 3 wOkBehave w250
      = drainLoop 80 3 wOkBehave w250.length w250 from rfl, ht]
  decide

/-- Claim C8 amended: calling `send_batch` with 250 messages and a
window size (rate limit) of 80 drains the queue in exactly 4 dispatch
windows of sizes 80, 80, 80, 10 (⌈250/80⌉ = 4), with a 1-second sleep
between consecutive window dispatches (so consecutive window starts are
at least 1 second apart), and ends with
`len(success) + len(failed) == 250`. -/
theorem send_batch_250_window_80_four_windows
    (retry_attempts : Nat) (behave : SMSMessage → ProviderBehaviour)
    (messages : List SMSMessage) (hlen : messages.length = 250) :
    (send_batch 80 retry_attempts behave messages).trace =
      [.window 80, .sleep 1, .window 80, .sleep 1, .window 80, .sleep 1, .window 10] ∧
    (send_batch 80 retry_attempts behave messages).success.length +
      (send_batch 80 retry_attempts behave messages).failed.length = 250 := by
  constructor
  · have ht := drainLoop_trace 80 retry_attempts behave messages.length messages
    rw [show send_batch 80 retry_attempts behave messages
        = drainLoop 80 retry_attempts behave messages.length messages from rfl, ht, hlen]
    decide
  · have h := send_batch_complete_accounting 80 retry_attempts behave messages (by decide)
    rw [← hlen]
    exact h.2.2.1

set_option maxRecDepth 8000 in
/-- Witness for the amended C8 on the concrete 250-message load. -/
theorem send_batch_250_window_80_four_windows_witness :
    (send_batch 80 3 wOkBehave w250).trace =
      [.window 80, .sleep 1, .window 80, .sleep 1, .window 80, .sleep 1, .window 10] ∧
    (send_batch 80 3 wOkBehave w250).success.length +
      (send_batch 80 3 wOkBehave w250).failed.length = 250 :=
  send_batch_250_window_80_four_windows 3 wOkBehave w250 (by decide)

end Batch

namespace Pipeline

/-- Python `str.upper()` (character-wise, as for the ASCII inputs the
code compares against). -/
def pyUpper (s : String) : String := String.mk (s.data.map Char.toUpper)

/-- Python `str.lower()`. -/
def pyLower (s : String) : String := String.mk (s.data.map Char.toLower)

/-- Python `str.strip()`: drop leading and trailing whitespace. -/
def pyStrip (s : String) : String :=
  String.mk (((s.data.dropWhile Char.isWhitespace).reverse.dropWhile
    Char.isWhitespace).reverse)

/-- Crisis categories, from `CrisisEventType` referenced by
`src/jules-backend/src/services/crisis_service.py`. -/
inductive CrisisEventType where
  | suicide
  | self_harm
  | violence
  | abuse
deriving Repr, DecidableEq

/-- Result of `CrisisDetectionService.detect_crisis`.  Confidences are
the source's fixed per-category weights scaled by 100 (0.9 → 90 and so
on), which preserves every comparison the code performs. -/
structure CrisisResult where
  detected : Bool
  event_type : Option CrisisEventType := none
  keywords : List String := []
  confidence : Nat := 0
  all_events : List (CrisisEventType × List String × Nat) := []
deriving Repr, DecidableEq

/-- Python `max(detected_events, key=lambda x: x["confidence"])`: keeps
the first event with maximal confidence. -/
def maxByConfidence (best : CrisisEventType × List String × Nat) :
    List (CrisisEventType × List String × Nat) → CrisisEventType × List String × Nat
  | [] => best
  | e :: rest => maxByConfidence (if best.2.2 < e.2.2 then e else best) rest

/-- `CrisisDetectionService.detect_crisis`: lower-case the message,
check the four keyword categories in order (suicide 0.9, self-harm 0.8,
violence 0.85, abuse 0.75) and, when any matched, report the
highest-confidence category as primary while retaining all matches.
The per-category regex lists are external `re` behaviour, modelled by
the matcher functions `mS mH mV mA` (matched keywords of a category in
a text; a category checks as matched when its list is nonempty). -/
def detect_crisis (mS mH mV mA : String → List String) (message : String) :
    CrisisResult :=
  let message_lower := pyLower message
  let detected_events : List (CrisisEventType × List String × Nat) :=
    (if (mS message_lower).isEmpty then [] else [(.suicide, mS message_lower, 90)]) ++
    (if (mH message_lower).isEmpty then [] else [(.self_harm, mH message_lower, 80)]) ++
    (if (mV message_lower).isEmpty then [] else [(.violence, mV message_lower, 85)]) ++
    (if (mA message_lower).isEmpty then [] else [(.abuse, mA message_lower, 75)])
  match detected_events with
  | [] => { detected := false }
  | e :: rest =>
    let primary := maxByConfidence e rest
    { detected := true
      event_type := some primary.1
      keywords := primary.2.1
      confidence := primary.2.2
      all_events := e :: rest }

/-- `CrisisDetectionService._build_hotline_message`. -/
def _build_hotline_message (hotline_number : String) : String :=
  "I\x27m concerned about what you\x27re sharing. Please know that help is available:\n\n" ++
  "🆘 Crisis & Suicide Lifeline: " ++ hotline_number ++ "\n" ++
  "Available 24/7 for free, confidential support.\n\n" ++
  "You can also text \x27HELLO\x27 to 741741 for Crisis Text Line.\n\n" ++
  "I\x27m here to listen and support you, but I\x27m not a therapist or crisis counselor. " ++
  "These trained professionals can provide the immediate help you need."

/-- `CrisisDetectionService.get_crisis_response`. -/
def get_crisis_response (hotline_number : String) : String :=
  _build_hotline_message hotline_number

/-- Observable side effects of `ConversationService.process_inbound_message`
(in the order the code performs them). -/
inductive PEffect where
  | optOutUser
  | sendSms (to_number : String) (body : String)
  | logCrisisEvent
  | saveMessage (content : String) (inbound : Bool) (crisis_detected : Bool)
  | llmGenerate
  | recordDisclosure
  | updateLastMessageTime
  | commit
deriving Repr, DecidableEq

/-- The step-3 STOP-family check:
`message_body.strip().upper() in ["STOP", "UNSUBSCRIBE", "CANCEL", "END", "QUIT"]`. -/
def isStopKeyword (body : String) : Bool :=
  ["STOP", "UNSUBSCRIBE", "CANCEL", "END", "QUIT"].contains (pyUpper (pyStrip body))

/-- Step 9's response text: the AI content, with the initial or periodic
disclosure prepended when one is due. -/
def responseText (disclosure_needed is_new : Bool)
    (initial_disclosure periodic_disclosure llm_content : String) : String :=
  if disclosure_needed then
    (if is_new then initial_disclosure else periodic_disclosure) ++ "\n\n" ++ llm_content
  else llm_content

/-- Result dict of `process_inbound_message`. -/
structure PipeResult where
  status : String
  reason : Option String := none
  response_sent : Bool := false
deriving Repr, DecidableEq

/-- `ConversationService.process_inbound_message` on the path where no
collaborator raises: the opt-out gate, the STOP-family gate, crisis
detection with the non-suppressible safety reply, saving the inbound
message, LLM generation, optional disclosure, the normal reply, and the
bookkeeping tail.  Collaborator outputs (`opted_out`, `is_new`,
`disclosure_needed`, the matchers, the LLM content, the disclosure
texts) are environment parameters. -/
def process_inbound_message
    (opted_out is_new disclosure_needed : Bool)
    (mS mH mV mA : String → List String)
    (llm_content initial_disclosure periodic_disclosure hotline_number : String)
    (from_number message_body : String) :
    PipeResult × List PEffect :=
  if opted_out then
    ({ status := "ignored", reason := some "user_opted_out" }, [])
  else if isStopKeyword message_body then
    ({ status := "opted_out" },
      [.optOutUser,
       .sendSms from_number
         ("You\x27ve been unsubscribed from Jules. " ++ "Reply START to resubscribe anytime.")])
  else
    let crisis_result := detect_crisis mS mH mV mA message_body
    let crisisEffects : List PEffect :=
      if crisis_result.detected then
        [.logCrisisEvent, .sendSms from_number (get_crisis_response hotline_number)]
      else []
    let response_text :=
      responseText disclosure_needed is_new initial_disclosure periodic_disclosure llm_content
    let discEffects : List PEffect :=
      if disclosure_needed then [.recordDisclosure] else []
    ({ status := "success", response_sent := true },
      crisisEffects ++
        ([.saveMessage message_body true crisis_result.detected, .llmGenerate] ++
          (discEffects ++
            [.sendSms from_number response_text,
             .saveMessage response_text false false,
             .updateLastMessageTime,
             .commit])))

/-- Whether an effect is an outbound SMS send. -/
def isSendEffect : PEffect → Bool
  | .sendSms _ _ => true
  | _ => false

end Pipeline

namespace Pipeline

/-- Claim C9: for every inbound message that reaches crisis detection
(the sender is not opted out, the text is not a STOP-family keyword) and
for which `detect_crisis` reports `detected = True`, the pipeline sends
the dedicated crisis-hotline safety reply, and the risk match does not
prevent the rest of the pipeline from running: the inbound message is
still saved (flagged as crisis), generation still proceeds, the normal
reply is still sent, the run still reports success, and exactly two
outbound sends happen — the safety reply and the normal reply. -/
theorem crisis_reply_sent_and_pipeline_continues
    (is_new disclosure_needed : Bool) (mS mH mV mA : String → List String)
    (llm_content initial_disclosure periodic_disclosure hotline_number : String)
    (from_number message_body : String)
    (hstop : isStopKeyword message_body = false)
    (hdet : (detect_crisis mS mH mV mA message_body).detected = true) :
    PEffect.sendSms from_number (get_crisis_response hotline_number) ∈
      (process_inbound_message false is_new disclosure_needed mS mH mV mA
        llm_content initial_disclosure periodic_disclosure hotline_number
        from_number message_body).2 ∧
    PEffect.saveMessage message_body true true ∈
      (process_inbound_message false is_new disclosure_needed mS mH mV mA
        llm_content initial_disclosure periodic_disclosure hotline_number
        from_number message_body).2 ∧
    PEffect.llmGenerate ∈
      (process_inbound_message false is_new disclosure_needed mS mH mV mA
        llm_content initial_disclosure periodic_disclosure hotline_number
        from_number message_body).2 ∧
    PEffect.sendSms from_number
        (responseText disclosure_needed is_new initial_disclosure periodic_disclosure
          llm_content) ∈
      (process_inbound_message false is_new disclosure_needed mS mH mV mA
        llm_content initial_disclosure periodic_disclosure hotline_number
        from_number message_body).2 ∧
    ((process_inbound_message false is_new disclosure_needed mS mH mV mA
        llm_content initial_disclosure periodic_disclosure hotline_number
        from_number message_body).2.countP isSendEffect) = 2 ∧
    (process_inbound_message false is_new disclosure_needed mS mH mV mA
        llm_content initial_disclosure periodic_disclosure hotline_number
        from_number message_body).1.status = "success" := by
  unfold process_inbound_message
  rw [hstop]
  simp only [Bool.false_eq_true, if_false, hdet, if_true]
  cases disclosure_needed <;>
    simp [List.countP_cons, isSendEffect, List.mem_append]

end Pipeline

namespace Pipeline

/-- Witness matcher for the suicide category: matches the lowered text
"i want to die". -/
def wMatchSuicide : String → List String :=
  fun t => if t = "i want to die" then ["want to die"] else []

/-- Witness matcher that never matches. -/
def wMatchNone : String → List String := fun _ => []

/-- Witness for C9: a concrete crisis message through the pipeline with
no disclosure due — the safety reply, the saved crisis-flagged inbound
message, the generation, the normal reply, exactly two sends, and the
success status are all observable. -/
theorem crisis_reply_sent_and_pipeline_continues_witness :
    PEffect.sendSms "+15551234" (get_crisis_response "988") ∈
      (process_inbound_message false false false wMatchSuicide wMatchNone wMatchNone
        wMatchNone "ok" "init" "per" "988" "+15551234" "I want to DIE").2 ∧
    PEffect.saveMessage "I want to DIE" true true ∈
      (process_inbound_message false false false wMatchSuicide wMatchNone wMatchNone
        wMatchNone "ok" "init" "per" "988" "+15551234" "I want to DIE").2 ∧
    PEffect.llmGenerate ∈
      (process_inbound_message false false false wMatchSuicide wMatchNone wMatchNone
        wMatchNone "ok" "init" "per" "988" "+15551234" "I want to DIE").2 ∧
    PEffect.sendSms "+15551234" (responseText false false "init" "per" "ok") ∈
      (process_inbound_message false false false wMatchSuicide wMatchNone wMatchNone
        wMatchNone "ok" "init" "per" "988" "+15551234" "I want to DIE").2 ∧
    ((process_inbound_message false false false wMatchSuicide wMatchNone wMatchNone
        wMatchNone "ok" "init" "per" "988" "+15551234" "I want to DIE").2.countP
      isSendEffect) = 2 ∧
    (process_inbound_message false false false wMatchSuicide wMatchNone wMatchNone
        wMatchNone "ok" "init" "per" "988" "+15551234" "I want to DIE").1.status =
      "success" :=
  crisis_reply_sent_and_pipeline_continues false false wMatchSuicide wMatchNone
    wMatchNone wMatchNone "ok" "init" "per" "988" "+15551234" "I want to DIE"
    (by decide) (by decide)

end Pipeline

namespace RecipeSaga

/-- Lift a Python callable returning `None` into a saga step outcome. -/
def liftUnit (x : Except String Unit) : Except String String :=
  match x with
  | .ok _ => .ok "None"
  | .error e => .error e

/-- The value of a nonlocal variable set by a successful step (`None`
when the step never succeeded). -/
def okValue (x : Except String String) : Option String :=
  match x with
  | .ok v => some v
  | .error _ => none

/-- The four steps built by `RecipeExtractionSaga.execute_extraction` in
`src/backend/core/sagas/recipe_extraction_saga.py`: upload the image
(compensation: delete it), extract the recipe (no compensation), save it
(compensation: soft-delete), notify the user (no compensation).  Each
external call's outcome is an environment parameter. -/
def extractionSteps (upload extract save : Except String String)
    (notifyOk : Except String Unit) (compImg compRec : Except String Unit) :
    List Saga.SagaStep :=
  [{ name := "upload_image", execute := upload, compensate := some compImg },
   { name := "extract_recipe", execute := extract, compensate := none },
   { name := "save_recipe", execute := save, compensate := some compRec },
   { name := "notify_user", execute := liftUnit notifyOk, compensate := none }]

/-- Result dict of `execute_extraction`. -/
structure ExtractionResult where
  success : Bool
  recipe_id : Option String := none
  image_url : Option String := none
  error : Option String := none
  saga_id : String
deriving Repr, DecidableEq

/-- Observable outcome of `execute_extraction`: its returned dict or
propagated exception, plus whether `send_recipe_failure` was invoked. -/
structure ExtractionOutcome where
  result : Except String ExtractionResult
  failure_notice_sent : Bool
deriving Repr

/-- `RecipeExtractionSaga.execute_extraction`: run the four-step saga
through the orchestrator; on success return the success dict with the
captured `recipe_id` and `image_url`; when the orchestrator re-raises a
step error after rollback, catch it, call
`notification.send_recipe_failure` (outcome `notifyFail`), and return
the failure dict with the error string and saga id — unless that
notification call itself raises, in which case its error propagates. -/
def execute_extraction (saga_id : String)
    (upload extract save : Except String String)
    (notifyOk compImg compRec notifyFail : Except String Unit) :
    ExtractionOutcome :=
  let context : Saga.SagaContext :=
    { saga_id := saga_id
      steps := extractionSteps upload extract save notifyOk compImg compRec }
  match (Saga.execute context).raised with
  | none =>
    { result := .ok
        { success := true
          recipe_id := okValue save
          image_url := okValue upload
          saga_id := saga_id }
      failure_notice_sent := false }
  | some e =>
    match notifyFail with
    | .ok _ =>
      { result := .ok { success := false, error := some e, saga_id := saga_id }
        failure_notice_sent := true }
    | .error e2 =>
      { result := .error e2
        failure_notice_sent := true }

/-- Claim C10 counterexample: an execution in which a saga step raises
(the AI-extraction step fails with "ai down") but
`send_recipe_failure` itself raises "sms down": `execute_extraction`
propagates the notification error instead of returning the
`success = False` result dict, so the claim as stated fails. -/
theorem execute_extraction_raises_when_notification_fails :
    (Saga.execute
        { saga_id := "sg1"
          steps := extractionSteps (.ok "s3://img") (.error "ai down") (.ok "rid")
            (.ok ()) (.ok ()) (.ok ())
          : Saga.SagaContext }).raised = some "ai down" ∧
    (execute_extraction "sg1" (.ok "s3://img") (.error "ai down") (.ok "rid")
        (.ok ()) (.ok ()) (.ok ()) (.error "sms down")).result = .error "sms down" ∧
    (execute_extraction "sg1" (.ok "s3://img") (.error "ai down") (.ok "rid")
        (.ok ()) (.ok ()) (.ok ()) (.error "sms down")).result ≠
      .ok { success := false, error := some "ai down", saga_id := "sg1" } := by
  refine ⟨by decide, rfl, ?_⟩
  intro h
  exact Except.noConfusion h

/-- Claim C10 amended: whenever some step of the extraction saga raises
(the orchestrator re-raises `e` after rollback), `execute_extraction`
always invokes `send_recipe_failure`; when that notification call itself
returns, the step error is caught and the `success = False` dict with
the error string and saga id is returned instead of raising, and when
the notification call raises, its own error — not the step error as
such — is what propagates to the caller. -/
theorem execute_extraction_failure_path
    (saga_id : String) (upload extract save : Except String String)
    (notifyOk compImg compRec : Except String Unit) (e : String)
    (hraised : (Saga.execute
        { saga_id := saga_id
          steps := extractionSteps upload extract save notifyOk compImg compRec
          : Saga.SagaContext }).raised = some e) :
    ((execute_extraction saga_id upload extract save notifyOk compImg compRec
        (.ok ())).result =
      .ok { success := false, error := some e, saga_id := saga_id } ∧
     (execute_extraction saga_id upload extract save notifyOk compImg compRec
        (.ok ())).failure_notice_sent = true) ∧
    (∀ e2 : String,
      (execute_extraction saga_id upload extract save notifyOk compImg compRec
          (.error e2)).result = .error e2 ∧
      (execute_extraction saga_id upload extract save notifyOk compImg compRec
          (.error e2)).failure_notice_sent = true) := by
  refine ⟨?_, ?_⟩
  · simp [execute_extraction, hraised]
  · intro e2
    simp [execute_extraction, hraised]

/-- Witness for the amended C10: the AI-extraction step fails; with a
deliverable notification the caller receives the `success = False` dict,
and with a failing notification the notification error propagates —
in both runs the failure notice was attempted. -/
theorem execute_extraction_failure_path_witness :
    ((execute_extraction "sg1" (.ok "s3://img") (.error "ai down") (.ok "rid")
        (.ok ()) (.ok ()) (.ok ()) (.ok ())).result =
      .ok { success := false, error := some "ai down", saga_id := "sg1" } ∧
     (execute_extraction "sg1" (.ok "s3://img") (.error "ai down") (.ok "rid")
        (.ok ()) (.ok ()) (.ok ()) (.ok ())).failure_notice_sent = true) ∧
    ((execute_extraction "sg1" (.ok "s3://img") (.error "ai down") (.ok "rid")
        (.ok ()) (.ok ()) (.ok ()) (.error "sms down")).result = .error "sms down" ∧
     (execute_extraction "sg1" (.ok "s3://img") (.error "ai down") (.ok "rid")
        (.ok ()) (.ok ()) (.ok ()) (.error "sms down")).failure_notice_sent = true) :=
  ⟨(execute_extraction_failure_path "sg1" (.ok "s3://img") (.error "ai down")
      (.ok "rid") (.ok ()) (.ok ()) (.ok ()) "ai down" (by decide)).1,
   (execute_extraction_failure_path "sg1" (.ok "s3://img") (.error "ai down")
      (.ok "rid") (.ok ()) (.ok ()) (.ok ()) "ai down" (by decide)).2 "sms down"⟩

end RecipeSaga
